import Mathlib

/-!
Shallow embedding of the per-user todo backend (todo/models.py,
todo/serializers.py, todo/views.py).  The relational store is a set of
in-memory tables and every request handler is a pure function from the
id of the authenticated user and the current database to an HTTP-level
outcome.  Records carry exactly the columns the models declare; where a
handler issues an ORM query against a column that does not exist
(`Category` has no `user` field) or applies an invalid lookup to a
relational field (`priority__icontains` on the `priority` ForeignKey),
Django raises FieldError, an uncaught exception, modelled here as a
server error.
-/

deriving instance DecidableEq for Except

namespace Todo

/-- HTTP-level failure outcomes of a handler.  `notFound` is a 404,
`validationError` a 400 carrying the collected serializer messages,
`forbidden` a 403 (present in the taxonomy so that its absence can be
proved), and `serverError` a 500 caused by an uncaught exception
(FieldError from an unresolvable ORM keyword or invalid relational
lookup, or AttributeError while serializing). -/
inductive ApiError : Type
  | notFound : ApiError
  | forbidden : ApiError
  | validationError : List String → ApiError
  | serverError : ApiError
deriving DecidableEq

/-- A row of the priority table (`Priority` in models.py): only a name. -/
structure PriorityRec where
  id : Nat
  name : String
deriving DecidableEq

/-- A row of the category table (`Category` in models.py, lines 12-16):
only a name.  The model declares no user column, although the category
handlers later query one. -/
structure CategoryRec where
  id : Nat
  name : String
deriving DecidableEq

/-- A row of the task table (`Task` in models.py): a title, a description,
an optional priority reference (ForeignKey, stored as a pk), an optional
category reference (ForeignKey, stored as a pk), an optional due
timestamp, a completed flag and the owning user. -/
structure TaskRec where
  id : Nat
  title : String
  description : String
  priority : Option Nat
  category : Option Nat
  due_date : Option Int
  completed : Bool
  user : Nat
deriving DecidableEq

/-- The relational store backing the handlers: the user table is kept as
the list of existing user ids. -/
structure Database where
  users : List Nat
  priorities : List PriorityRec
  categories : List CategoryRec
  tasks : List TaskRec
deriving DecidableEq

/-- The task body accepted by the task create and update endpoints.  The
priority, category and user fields are pk references
(`ModelSerializer` with all fields makes each a PrimaryKeyRelatedField).
The list view overwrites the body user with the id of the requester
before validation (views.py line 194); the detail view consumes the body
as sent. -/
structure TaskInput where
  title : String
  description : String
  priority : Option Nat
  category : Option Nat
  due_date : Option Int
  completed : Bool
  user : Option Nat
deriving DecidableEq

/-- The output object produced for a task by `to_representation`: the
`category` field is the resolved category name, which is never null; the
`priority` field carries the stored reference as-is. -/
structure TaskRepr where
  id : Nat
  title : String
  description : String
  priority : Option Nat
  category : String
  due_date : Option Int
  completed : Bool
deriving DecidableEq

/-- Whether an outcome is a success. -/
def exceptOk {α : Type} : Except ApiError α → Bool
  | .ok _ => true
  | .error _ => false

/-- `TaskSerializer.to_representation` (serializers.py): builds the output
object, reading `instance.category.name` unconditionally.  A task whose
category is null (or dangling) raises, producing no representation. -/
def taskSerializerRepr (db : Database) (t : TaskRec) : Option TaskRepr :=
  match t.category with
  | none => none
  | some cid =>
    match db.categories.find? (fun c => c.id == cid) with
    | none => none
    | some cat =>
      some { id := t.id
             title := t.title
             description := t.description
             priority := t.priority
             category := cat.name
             due_date := t.due_date
             completed := t.completed }

/-- `TaskCreateSerializer.to_representation` (serializers.py): identical to
the output projection of the plain task serializer, with the same
unconditional read of `instance.category.name`. -/
def taskCreateSerializerRepr (db : Database) (t : TaskRec) : Option TaskRepr :=
  match t.category with
  | none => none
  | some cid =>
    match db.categories.find? (fun c => c.id == cid) with
    | none => none
    | some cat =>
      some { id := t.id
             title := t.title
             description := t.description
             priority := t.priority
             category := cat.name
             due_date := t.due_date
             completed := t.completed }

/-- Python equality between a model instance and a string: always False
(`Model.__eq__` compares class and pk, never a str). -/
def instanceEqLabel (_value : PriorityRec) (_label : String) : Bool :=
  false

/-- `TaskCreateSerializer.validate_priority`: the membership test
`value not in [low, medium, high]` compares the pk-deserialized Priority
instance with label strings, so no value ever passes. -/
def validate_priority (value : PriorityRec) : Bool :=
  instanceEqLabel value "low" || instanceEqLabel value "medium" ||
    instanceEqLabel value "high"

/-- `TaskCreateSerializer.validate`: the duplicate-title probe
`Task.objects.filter(user=request.user, title=data[title]).exists()`
(the Task model does have a user column). -/
def titleExists (u : Nat) (db : Database) (title : String) : Bool :=
  db.tasks.any (fun t => t.user == u && t.title == title)

/-- Field deserialization of the priority reference on the create path:
an absent field is skipped, an unresolvable pk is collected as a field
error, and a resolved Priority instance is handed to `validate_priority`,
which rejects every instance. -/
def priorityFieldErrors (db : Database) (p : Option Nat) : List String :=
  match p with
  | none => []
  | some pid =>
    match db.priorities.find? (fun q => q.id == pid) with
    | none => ["Invalid pk - object does not exist."]
    | some pr => if validate_priority pr then [] else ["Invalid priority."]

/-- Field deserialization of the category reference on the create path:
an absent field is skipped and an unresolvable pk is collected as a field
error, but a resolvable pk reaches `validate_category`, whose
`Category.objects.filter(user=..., name=value)` raises FieldError —
`Category` (models.py lines 12-16) has no user column — an uncaught
exception surfacing as a 500. -/
def categoryFieldResult (db : Database) (c : Option Nat) :
    Except ApiError (List String) :=
  match c with
  | none => .ok []
  | some cid =>
    match db.categories.find? (fun c2 => c2.id == cid) with
    | none => .ok ["Invalid pk - object does not exist."]
    | some _ => .error .serverError

/-- `TaskListView.post` with `TaskCreateSerializer`: fields are processed
in model order (priority before category) and their serializer
ValidationErrors are collected; a resolvable category reference crashes
inside `validate_category`; the object-level duplicate-title check runs
only when no field error was collected; on success one task row owned by
the requester is inserted (the view injects the requester id as the user
field). -/
def createTask (u newId : Nat) (input : TaskInput) (db : Database) :
    Except ApiError (Database × TaskRec) :=
  match categoryFieldResult db input.category with
  | .error e => .error e
  | .ok catErrs =>
    match priorityFieldErrors db input.priority ++ catErrs with
    | [] =>
      if titleExists u db input.title then
        .error (.validationError ["This task already exists."])
      else
        let t : TaskRec :=
          { id := newId
            title := input.title
            description := input.description
            priority := input.priority
            category := input.category
            due_date := input.due_date
            completed := input.completed
            user := u }
        .ok ({ db with tasks := db.tasks ++ [t] }, t)
    | errs => .error (.validationError errs)

/-- `CategoryListView.get`: `Category.objects.filter(user=request.user)`
(views.py line 119) cannot resolve the keyword `user` against the
Category model, which has only id and name, so Django raises FieldError
on every request — an uncaught 500. -/
def listCategories (_u : Nat) (_db : Database) : Except ApiError (List CategoryRec) :=
  .error .serverError

/-- `CategoryListView.post` with `CategorySerializer.create`: the
duplicate probe `Category.objects.filter(user=..., name=...)`
(serializers.py line 77) raises FieldError before anything is inserted —
`Category` has no user column — so every create request is an uncaught
500. -/
def createCategory (_u _newId : Nat) (_name : String) (_db : Database) :
    Except ApiError (Database × CategoryRec) :=
  .error .serverError

/-- The task list query of `TaskListView.get`: when both query parameters
are truthy (supplied and non-empty, Python `if category and priority`)
the code builds `filter(user=..., category__name__icontains=...,
priority__icontains=...)` (views.py line 176); `priority` is a
ForeignKey, on which `icontains` is an invalid lookup, so Django raises
FieldError (Related Field got invalid lookup) — an uncaught 500.
Otherwise the query is `filter(user=...)` alone. -/
def taskListFilter (u : Nat) (db : Database) (category priority : Option String) :
    Except ApiError (List TaskRec) :=
  match category, priority with
  | some c, some p =>
    if (c != "") && (p != "") then
      .error .serverError
    else
      .ok (db.tasks.filter (fun t => t.user == u))
  | _, _ => .ok (db.tasks.filter (fun t => t.user == u))

/-- `TaskDetailView.get`: `get_object_or_404(Task, id=pk, user=request.user)`
followed by serialization of the found row. -/
def getTask (u i : Nat) (db : Database) : Except ApiError TaskRepr :=
  match db.tasks.find? (fun t => t.id == i && t.user == u) with
  | none => .error .notFound
  | some t =>
    match taskSerializerRepr db t with
    | none => .error .serverError
    | some r => .ok r

/-- Resolution of the priority reference by the plain `TaskSerializer`
(update path): a PrimaryKeyRelatedField with no further validator, so an
absent field is skipped and an unresolvable pk is a field error. -/
def priorityRefErrors (db : Database) (p : Option Nat) : List String :=
  match p with
  | none => []
  | some pid =>
    if db.priorities.any (fun q => q.id == pid) then []
    else ["Invalid pk - object does not exist."]

/-- Resolution of the category reference by the plain `TaskSerializer`
(update path): a PrimaryKeyRelatedField with no further validator — the
update path never reaches `validate_category`, so no crash and no
ownership check. -/
def categoryRefErrors (db : Database) (c : Option Nat) : List String :=
  match c with
  | none => []
  | some cid =>
    if db.categories.any (fun c2 => c2.id == cid) then []
    else ["Invalid pk - object does not exist."]

/-- The `user` field of the plain `TaskSerializer`: with all model fields
serialized it is a required PrimaryKeyRelatedField, so a body without a
user pk is a field error and an unresolvable pk is a field error. -/
def userFieldErrors (db : Database) (uref : Option Nat) : List String :=
  match uref with
  | none => ["This field is required."]
  | some uid =>
    if db.users.any (fun w => w == uid) then []
    else ["Invalid pk - object does not exist."]

/-- Overwrite a task row with the validated full-replacement body of a
PUT; the serializer sets every writable field, including the owner taken
from the body. -/
def applyInput (input : TaskInput) (t : TaskRec) : TaskRec :=
  { t with
    title := input.title
    description := input.description
    priority := input.priority
    category := input.category
    due_date := input.due_date
    completed := input.completed
    user := input.user.getD t.user }

/-- `TaskDetailView.put` with the plain `TaskSerializer`: 404 when no task
with this id is owned by the requesting user; then field validation in
model order (priority, category, user) — relational pk resolution and the
required user field only, since the serializer defines no custom
validators; with no field error the row is replaced in place. -/
def updateTask (u i : Nat) (input : TaskInput) (db : Database) :
    Except ApiError Database :=
  match db.tasks.find? (fun t => t.id == i && t.user == u) with
  | none => .error .notFound
  | some t0 =>
    match priorityRefErrors db input.priority ++ categoryRefErrors db input.category ++
        userFieldErrors db input.user with
    | [] =>
      .ok { db with
            tasks := db.tasks.map (fun t =>
              if t.id == t0.id then applyInput input t else t) }
    | errs => .error (.validationError errs)

/-- `TaskDetailView.delete`: 404 under the same ownership rule, then
`task.delete()` removes the row carrying the id of the found task and the
response carries only a confirmation message. -/
def deleteTask (u i : Nat) (db : Database) : Except ApiError (Database × String) :=
  match db.tasks.find? (fun t => t.id == i && t.user == u) with
  | none => .error .notFound
  | some t0 =>
    .ok ({ db with tasks := db.tasks.filter (fun t => !(t.id == t0.id)) },
         "Task has been deleted successfully.")

/-! ### Helper lemmas -/

theorem titleExists_iff (u : Nat) (db : Database) (title : String) :
    titleExists u db title = true ↔
      ∃ t ∈ db.tasks, t.user = u ∧ t.title = title := by
  simp [titleExists, List.any_eq_true]

theorem refErrors_mem (db : Database) (p c uref : Option Nat) (m : String)
    (h : m ∈ priorityRefErrors db p ++ categoryRefErrors db c ++
      userFieldErrors db uref) :
    m = "Invalid pk - object does not exist." ∨ m = "This field is required." := by
  rw [List.mem_append] at h
  rcases h with h | h
  · rw [List.mem_append] at h
    rcases h with h | h
    · left
      cases p with
      | none => simp [priorityRefErrors] at h
      | some pid =>
        cases hb : db.priorities.any (fun q => q.id == pid) with
        | true => simp [priorityRefErrors, hb] at h
        | false =>
          simp [priorityRefErrors, hb] at h
          exact h
    · left
      cases c with
      | none => simp [categoryRefErrors] at h
      | some cid =>
        cases hb : db.categories.any (fun c2 => c2.id == cid) with
        | true => simp [categoryRefErrors, hb] at h
        | false =>
          simp [categoryRefErrors, hb] at h
          exact h
  · cases uref with
    | none =>
      right
      simpa [userFieldErrors] using h
    | some uid =>
      cases hb : db.users.any (fun w => w == uid) with
      | true => simp [userFieldErrors, hb] at h
      | false =>
        left
        simp [userFieldErrors, hb] at h
        exact h

/-! ### Concrete fixtures used by counterexamples and witnesses -/

/-- A store in which user 1 owns the category Work and user 2 owns the
task with id 10. -/
def wDb : Database :=
  { users := [1, 2]
    priorities := [{ id := 3, name := "high" }]
    categories := [{ id := 1, name := "Work" }]
    tasks := [{ id := 10, title := "Buy milk", description := "d",
                priority := some 3, category := some 1, due_date := none,
                completed := false, user := 2 }] }

/-- A task body with no priority, category or user reference. -/
def wInputPlain : TaskInput :=
  { title := "Write report", description := "x", priority := none,
    category := none, due_date := none, completed := false, user := none }

/-- A store holding one existing category, id 5 named Work, and no task. -/
def C3db : Database :=
  { users := [1, 2]
    priorities := []
    categories := [{ id := 5, name := "Work" }]
    tasks := [] }

/-- A task body referencing category id 5. -/
def C3input : TaskInput :=
  { title := "Report", description := "d", priority := none,
    category := some 5, due_date := none, completed := false, user := none }

/-- A store in which user 1 already owns a task titled Report and
category id 5 exists. -/
def C6db : Database :=
  { users := [1, 2]
    priorities := []
    categories := [{ id := 5, name := "Work" }]
    tasks := [{ id := 40, title := "Report", description := "d",
                priority := none, category := some 5, due_date := none,
                completed := false, user := 1 }] }

/-- A duplicate-title body that also references the existing category 5. -/
def C6input : TaskInput :=
  { title := "Report", description := "d", priority := none,
    category := some 5, due_date := none, completed := false, user := none }

/-- A store holding one priority row whose name is the in-set label low. -/
def C7db : Database :=
  { users := [1]
    priorities := [{ id := 3, name := "low" }]
    categories := []
    tasks := [] }

/-- A task body referencing the priority row named low. -/
def C7input : TaskInput :=
  { title := "New", description := "x", priority := some 3,
    category := none, due_date := none, completed := false, user := none }

/-- A store for the C10 witness: user 1 owns tasks 30 and 31 with
distinct titles; a priority row named urgent and two categories exist. -/
def wDb10 : Database :=
  { users := [1, 2]
    priorities := [{ id := 9, name := "urgent" }]
    categories := [{ id := 1, name := "Work" }, { id := 2, name := "Home" }]
    tasks := [{ id := 30, title := "A", description := "d", priority := none,
                category := some 1, due_date := none, completed := false, user := 1 },
              { id := 31, title := "B", description := "d", priority := none,
                category := some 1, due_date := none, completed := false, user := 1 }] }

/-- A full-replacement body for task 31: the title duplicates task 30,
the priority resolves to the row named urgent (outside the label set) and
the category resolves; the body user is the requester. -/
def wInput10 : TaskInput :=
  { title := "A", description := "d", priority := some 9,
    category := some 2, due_date := none, completed := true, user := some 1 }

/-! ### Claim theorems -/

/-- C1: for every authenticated user u and task id i, get_task, update_task
and delete_task all fail with NotFound whenever no task with id i is owned
by u — including when a task with id i exists under a different owner — and
none of the three handlers ever produces a Forbidden outcome. -/
theorem C1_detail_notFound_never_forbidden (u i : Nat) (input : TaskInput)
    (db : Database) (h : ∀ t ∈ db.tasks, ¬(t.id = i ∧ t.user = u)) :
    getTask u i db = .error .notFound ∧
    updateTask u i input db = .error .notFound ∧
    deleteTask u i db = .error .notFound ∧
    (∀ u2 i2 : Nat, ∀ input2 : TaskInput, ∀ db2 : Database,
      getTask u2 i2 db2 ≠ .error .forbidden ∧
      updateTask u2 i2 input2 db2 ≠ .error .forbidden ∧
      deleteTask u2 i2 db2 ≠ .error .forbidden) := by
  have hnone : db.tasks.find? (fun t => t.id == i && t.user == u) = none := by
    rw [List.find?_eq_none]
    intro t ht
    simpa using h t ht
  refine ⟨by simp [getTask, hnone], by simp [updateTask, hnone],
          by simp [deleteTask, hnone], ?_⟩
  intro u2 i2 input2 db2
  refine ⟨?_, ?_, ?_⟩
  · cases hf : db2.tasks.find? (fun t => t.id == i2 && t.user == u2) with
    | none => simp [getTask, hf]
    | some t =>
      cases hr : taskSerializerRepr db2 t <;> simp [getTask, hf, hr]
  · cases hf : db2.tasks.find? (fun t => t.id == i2 && t.user == u2) with
    | none => simp [updateTask, hf]
    | some t0 =>
      cases he : priorityRefErrors db2 input2.priority ++
          categoryRefErrors db2 input2.category ++
          userFieldErrors db2 input2.user with
      | nil => simp [updateTask, hf, he]
      | cons a as => simp [updateTask, hf, he]
  · cases hf : db2.tasks.find? (fun t => t.id == i2 && t.user == u2) with
    | none => simp [deleteTask, hf]
    | some t0 => simp [deleteTask, hf]

/-- C1 witness: in `wDb` the task with id 10 belongs to user 2, so user 1
receives NotFound from all three detail handlers. -/
theorem C1_witness :
    getTask 1 10 wDb = .error .notFound ∧
    updateTask 1 10 wInputPlain wDb = .error .notFound ∧
    deleteTask 1 10 wDb = .error .notFound := by
  have h := C1_detail_notFound_never_forbidden 1 10 wInputPlain wDb (by decide)
  exact ⟨h.1, h.2.1, h.2.2.1⟩

/-- C2: the both-filters branch of the task list cannot run — `priority`
is a ForeignKey, on which the icontains lookup raises FieldError, so any
request with both parameters truthy is a 500 instead of the conjunctively
filtered list; with zero or one filter supplied the endpoint returns the
unfiltered owner-scoped list, as the claim states for that half. -/
theorem C2_both_filters_crash_else_unfiltered (u : Nat) (db : Database) :
    (∀ c p : String, c ≠ "" → p ≠ "" →
      taskListFilter u db (some c) (some p) = .error .serverError) ∧
    (∀ copt popt : Option String, (copt = none ∨ popt = none) →
      taskListFilter u db copt popt =
        .ok (db.tasks.filter (fun t => t.user == u))) := by
  constructor
  · intro c p hc hp
    have hc2 : (c != "") = true := by simpa using hc
    have hp2 : (p != "") = true := by simpa using hp
    simp [taskListFilter, hc2, hp2]
  · intro copt popt h
    rcases h with h | h
    · subst h
      cases popt <;> rfl
    · subst h
      cases copt <;> rfl

/-- C2 witness: the documented filter request category=wo, priority=hi
crashes. -/
theorem C2_witness :
    taskListFilter 1 wDb (some "wo") (some "hi") = .error .serverError :=
  (C2_both_filters_crash_else_unfiltered 1 wDb).1 "wo" "hi" (by decide) (by decide)

/-- C3: a create request whose category reference resolves to an existing
category row always crashes: `validate_category` filters Category by a
user column the model does not have, raising FieldError (500) — the
ownership-scoped ValidationError described by the claim is unreachable. -/
theorem C3_resolvable_category_crashes (u newId : Nat) (input : TaskInput)
    (db : Database) (cid : Nat) (cat : CategoryRec)
    (href : input.category = some cid)
    (hfind : db.categories.find? (fun c => c.id == cid) = some cat) :
    createTask u newId input db = .error .serverError := by
  simp [createTask, categoryFieldResult, href, hfind]

/-- C3 witness: user 1 referencing the existing category id 5 crashes the
create request. -/
theorem C3_witness : createTask 1 10 C3input C3db = .error .serverError :=
  C3_resolvable_category_crashes 1 10 C3input C3db 5 { id := 5, name := "Work" }
    rfl (by decide)

/-- C4: create_category never reaches the per-user uniqueness check or the
insert: the duplicate probe filters Category by a user column the model
does not have, so every request raises FieldError (500). -/
theorem C4_create_category_always_crashes (u newId : Nat) (name : String)
    (db : Database) :
    createCategory u newId name db = .error .serverError := rfl

/-- C5: list_categories never returns the owner-scoped list: the filter by
a user column the Category model does not have raises FieldError (500) on
every request. -/
theorem C5_list_categories_always_crashes (u : Nat) (db : Database) :
    listCategories u db = .error .serverError := rfl

/-- C6 counterexample: user 1 already owns a task titled Report, yet the
duplicate-title create request fails with a server crash, not a
ValidationError, because its body also references the existing category
id 5 and `validate_category` raises FieldError first. -/
theorem C6_counterexample_category_reference_crashes :
    (C6db.tasks.any (fun t => t.user == 1 && t.title == C6input.title)) = true ∧
    createTask 1 41 C6input C6db = .error .serverError := by decide

/-- C6 amended: for a body carrying no category reference, create_task
fails with ValidationError whenever a task with the same title already
exists for the requesting user (with the duplicate message once no other
field error is collected), and the check is per-user: a user without that
title passes validation and the row is inserted.  A body with a
resolvable category reference instead crashes before the title check. -/
theorem C6_duplicate_title_per_user (u newId : Nat) (input : TaskInput)
    (db : Database) :
    (input.category = none →
      (∃ t ∈ db.tasks, t.user = u ∧ t.title = input.title) →
      ∃ msgs, createTask u newId input db = .error (.validationError msgs)) ∧
    (input.category = none → input.priority = none →
      (∃ t ∈ db.tasks, t.user = u ∧ t.title = input.title) →
      createTask u newId input db =
        .error (.validationError ["This task already exists."])) ∧
    (input.category = none → input.priority = none →
      (¬ ∃ t ∈ db.tasks, t.user = u ∧ t.title = input.title) →
      exceptOk (createTask u newId input db) = true) := by
  refine ⟨?_, ?_, ?_⟩
  · intro hc hdup
    have hte : titleExists u db input.title = true :=
      (titleExists_iff u db input.title).mpr hdup
    cases hpe : priorityFieldErrors db input.priority with
    | nil =>
      exact ⟨["This task already exists."],
        by simp [createTask, categoryFieldResult, hc, hpe, hte]⟩
    | cons m ms =>
      exact ⟨m :: ms, by simp [createTask, categoryFieldResult, hc, hpe]⟩
  · intro hc hp hdup
    have hte : titleExists u db input.title = true :=
      (titleExists_iff u db input.title).mpr hdup
    simp [createTask, categoryFieldResult, priorityFieldErrors, hc, hp, hte]
  · intro hc hp hnd
    have hte : titleExists u db input.title = false := by
      cases h2 : titleExists u db input.title with
      | true => exact absurd ((titleExists_iff u db input.title).mp h2) hnd
      | false => rfl
    simp [createTask, categoryFieldResult, priorityFieldErrors, exceptOk,
      hc, hp, hte]

/-- C6 witness: user 2 already owns a task titled Buy milk, so a second
category-free create for user 2 fails with the duplicate message, while
user 1 creating the same title passes validation and inserts. -/
theorem C6_witness :
    createTask 2 20
        { title := "Buy milk", description := "x", priority := none,
          category := none, due_date := none, completed := false,
          user := none } wDb =
      .error (.validationError ["This task already exists."]) ∧
    exceptOk (createTask 1 20
        { title := "Buy milk", description := "x", priority := none,
          category := none, due_date := none, completed := false,
          user := none } wDb) = true := by
  constructor
  · exact (C6_duplicate_title_per_user 2 20
      { title := "Buy milk", description := "x", priority := none,
        category := none, due_date := none, completed := false,
        user := none } wDb).2.1 rfl rfl (by decide)
  · exact (C6_duplicate_title_per_user 1 20
      { title := "Buy milk", description := "x", priority := none,
        category := none, due_date := none, completed := false,
        user := none } wDb).2.2 rfl rfl (by decide)

/-- C7: the priority check can never pass: `validate_priority` receives
the pk-deserialized Priority instance, which never equals a label string,
so every instance is rejected, and a create request whose priority pk
resolves (with no category reference in the body) fails with the priority
ValidationError even when the row is named low, medium or high. -/
theorem C7_priority_never_passes (u newId : Nat) (input : TaskInput)
    (db : Database) (pid : Nat) (pr : PriorityRec) :
    (∀ q : PriorityRec, validate_priority q = false) ∧
    (input.priority = some pid →
      db.priorities.find? (fun q => q.id == pid) = some pr →
      input.category = none →
      createTask u newId input db =
        .error (.validationError ["Invalid priority."])) := by
  constructor
  · intro q
    rfl
  · intro hp hfind hc
    simp [createTask, categoryFieldResult, priorityFieldErrors, hc, hp, hfind,
      validate_priority, instanceEqLabel]

/-- C7 witness: the priority row named low is rejected: its instance fails
the label comparison and the create request returns the priority
ValidationError. -/
theorem C7_witness :
    validate_priority { id := 3, name := "low" } = false ∧
    createTask 1 22 C7input C7db =
      .error (.validationError ["Invalid priority."]) := by
  have h := C7_priority_never_passes 1 22 C7input C7db 3 { id := 3, name := "low" }
  exact ⟨h.1 { id := 3, name := "low" }, h.2 rfl (by decide) rfl⟩

/-- C8: when delete_task succeeds the task row is removed, so a subsequent
get_task for the same id by the same user fails with NotFound, and the
response carries only the confirmation message, not the deleted entity. -/
theorem C8_delete_then_get_notFound (u i : Nat) (db db2 : Database)
    (msg : String) (h : deleteTask u i db = .ok (db2, msg)) :
    getTask u i db2 = .error .notFound ∧
    msg = "Task has been deleted successfully." ∧
    (∀ t ∈ db2.tasks, t.id ≠ i) := by
  cases hf : db.tasks.find? (fun t => t.id == i && t.user == u) with
  | none => simp [deleteTask, hf] at h
  | some t0 =>
    have ht0 : t0.id = i ∧ t0.user = u := by
      simpa using List.find?_some hf
    simp only [deleteTask, hf] at h
    obtain ⟨hdb, hmsg⟩ := Prod.mk.injEq .. ▸ (Except.ok.injEq .. ▸ h :
      ({ db with tasks := db.tasks.filter (fun t => !(t.id == t0.id)) },
        "Task has been deleted successfully.") = (db2, msg))
    refine ⟨?_, hmsg.symm, ?_⟩
    · have hfind : db2.tasks.find? (fun t => t.id == i && t.user == u) = none := by
        rw [List.find?_eq_none]
        intro t htmem
        rw [← hdb] at htmem
        simp only [List.mem_filter] at htmem
        have : t.id ≠ t0.id := by simpa using htmem.2
        simp [ht0.1 ▸ this]
      simp [getTask, hfind]
    · intro t htmem
      rw [← hdb] at htmem
      simp only [List.mem_filter] at htmem
      have : t.id ≠ t0.id := by simpa using htmem.2
      exact ht0.1 ▸ this

/-- C8 witness: deleting task 10 as its owner (user 2) empties the task
table, and the subsequent get by user 2 returns NotFound. -/
theorem C8_witness :
    getTask 2 10 { wDb with tasks := [] } = .error .notFound :=
  (C8_delete_then_get_notFound 2 10 wDb { wDb with tasks := [] }
    "Task has been deleted successfully." (by decide)).1

/-- C9: the task output projection is not total: it unconditionally reads
the name of the category of the task, so every task whose category
reference is null yields no representation (the serializers raise instead
of emitting a null category field), and any produced representation always
carries a resolved category name. -/
theorem C9_task_serialization_not_total (db : Database) (t : TaskRec) :
    (t.category = none →
      taskSerializerRepr db t = none ∧ taskCreateSerializerRepr db t = none) ∧
    (∀ r : TaskRepr, taskSerializerRepr db t = some r →
      ∃ cid cat, t.category = some cid ∧
        db.categories.find? (fun c2 => c2.id == cid) = some cat ∧
        r.category = cat.name) := by
  constructor
  · intro h
    exact ⟨by simp [taskSerializerRepr, h], by simp [taskCreateSerializerRepr, h]⟩
  · intro r hr
    cases hc : t.category with
    | none => simp [taskSerializerRepr, hc] at hr
    | some cid =>
      cases hf : db.categories.find? (fun c2 => c2.id == cid) with
      | none => simp [taskSerializerRepr, hc, hf] at hr
      | some cat =>
        simp only [taskSerializerRepr, hc, hf, Option.some.injEq] at hr
        exact ⟨cid, cat, rfl, hf, by rw [← hr]⟩

/-- C9 witness: a task with a null category produces no representation. -/
theorem C9_witness :
    taskSerializerRepr wDb
        { id := 11, title := "t", description := "d", priority := none,
          category := none, due_date := none, completed := true, user := 2 } = none ∧
    taskCreateSerializerRepr wDb
        { id := 11, title := "t", description := "d", priority := none,
          category := none, due_date := none, completed := true, user := 2 } = none :=
  (C9_task_serialization_not_total wDb
    { id := 11, title := "t", description := "d", priority := none,
      category := none, due_date := none, completed := true, user := 2 }).1 rfl

/-- C10: the PUT update path uses the plain task serializer and so performs
none of the create-time semantic validations: no error it returns ever
contains the duplicate-title, category-ownership or priority-label
message, and an owned task whose body references only resolvable rows and
an existing user pk is always updated — even when the new title
duplicates another task of the same user or the referenced priority row
bears a label outside the fixed set. -/
theorem C10_update_skips_create_validations (u i : Nat) (input : TaskInput)
    (db : Database) :
    (∀ msgs : List String,
      updateTask u i input db = .error (.validationError msgs) →
      "This task already exists." ∉ msgs ∧
      "This category does not exist." ∉ msgs ∧
      "Invalid priority." ∉ msgs) ∧
    ((∃ t ∈ db.tasks, t.id = i ∧ t.user = u) →
      (input.priority = none ∨
        ∃ pid, input.priority = some pid ∧ ∃ q ∈ db.priorities, q.id = pid) →
      (input.category = none ∨
        ∃ cid, input.category = some cid ∧ ∃ c ∈ db.categories, c.id = cid) →
      (∃ uid, input.user = some uid ∧ uid ∈ db.users) →
      exceptOk (updateTask u i input db) = true) := by
  constructor
  · intro msgs hmsgs
    cases hf : db.tasks.find? (fun t2 => t2.id == i && t2.user == u) with
    | none => simp [updateTask, hf] at hmsgs
    | some t0 =>
      cases he : priorityRefErrors db input.priority ++
          categoryRefErrors db input.category ++
          userFieldErrors db input.user with
      | nil => simp [updateTask, hf, he] at hmsgs
      | cons a as =>
        simp only [updateTask, hf, he] at hmsgs
        have hm : a :: as = msgs := by simpa using hmsgs
        refine ⟨fun hmem => ?_, fun hmem => ?_, fun hmem => ?_⟩ <;>
          rw [← hm, ← he] at hmem <;>
          rcases refErrors_mem db input.priority input.category input.user _ hmem
            with h2 | h2 <;>
          exact absurd h2 (by decide)
  · intro hown hpri hcat huser
    obtain ⟨t, htmem, hti, htu⟩ := hown
    have hsome : (db.tasks.find? (fun t2 => t2.id == i && t2.user == u)).isSome := by
      rw [List.find?_isSome]
      exact ⟨t, htmem, by simp [hti, htu]⟩
    cases hf : db.tasks.find? (fun t2 => t2.id == i && t2.user == u) with
    | none =>
      rw [hf] at hsome
      simp at hsome
    | some t0 =>
      have hpe : priorityRefErrors db input.priority = [] := by
        rcases hpri with h | ⟨pid, h, q, hq, hqid⟩
        · simp [priorityRefErrors, h]
        · have hb : db.priorities.any (fun q2 => q2.id == pid) = true := by
            rw [List.any_eq_true]
            exact ⟨q, hq, by simp [hqid]⟩
          simp [priorityRefErrors, h, hb]
      have hce : categoryRefErrors db input.category = [] := by
        rcases hcat with h | ⟨cid, h, c, hc, hcid⟩
        · simp [categoryRefErrors, h]
        · have hb : db.categories.any (fun c2 => c2.id == cid) = true := by
            rw [List.any_eq_true]
            exact ⟨c, hc, by simp [hcid]⟩
          simp [categoryRefErrors, h, hb]
      have hue : userFieldErrors db input.user = [] := by
        obtain ⟨uid, h, hmem⟩ := huser
        have hb : db.users.any (fun w => w == uid) = true := by
          rw [List.any_eq_true]
          exact ⟨uid, hmem, by simp⟩
        simp [userFieldErrors, h, hb]
      simp [updateTask, hf, hpe, hce, hue, exceptOk]

/-- C10 witness: updating task 31 to the title of task 30, a priority row
named urgent and a resolvable category still succeeds. -/
theorem C10_witness :
    exceptOk (updateTask 1 31 wInput10 wDb10) = true :=
  (C10_update_skips_create_validations 1 31 wInput10 wDb10).2
    (by decide) (Or.inr ⟨9, rfl, by decide⟩) (Or.inr ⟨2, rfl, by decide⟩)
    ⟨1, rfl, by decide⟩

end Todo
